import Mathlib

/-!
Verification development for the QoreLogic governance core.

Shallow embedding of the trust-dynamics engine, the sentinel verification
pipeline, the mode enforcer, the source-credibility manager and the
hash-chained ledger, translated from the Python sources under
src/local_fortress/mcp_server/.  Python float arithmetic is modelled with
exact rationals; SHA-256 is implemented in full over byte lists.
-/

namespace QoreLogic

/-! ## Trust Dynamics Engine (trust_engine.py) -/

inductive TrustContext where
  | LOW_RISK
  | HIGH_RISK
deriving DecidableEq, Repr

inductive TrustStage where
  | CBT
  | KBT
  | IBT
deriving DecidableEq, Repr

def LAMBDA_HIGH_RISK : ℚ := 94/100

def LAMBDA_LOW_RISK : ℚ := 97/100

def DAMPING_FACTOR : ℚ := 1/2

def MAX_HOPS : Nat := 3

def PROBATION_FLOOR_SCI : ℚ := 35/100

/-- Embeds TrustEngine.get_lambda. -/
def get_lambda (context : TrustContext) : ℚ :=
  if context = TrustContext.HIGH_RISK then LAMBDA_HIGH_RISK else LAMBDA_LOW_RISK

/-- Embeds TrustEngine.calculate_ewma_update (the deal preconditions
    0 ≤ current_score ≤ 1 and 0 ≤ outcome_score ≤ 1 appear as theorem
    hypotheses). -/
def calculate_ewma_update (current_score outcome_score : ℚ)
    (context : TrustContext) : ℚ :=
  let lam := get_lambda context
  lam * current_score + (1 - lam) * outcome_score

/-- Embeds TrustEngine.get_trust_stage. -/
def get_trust_stage (score : ℚ) : TrustStage :=
  if score > 8/10 then TrustStage.IBT
  else if score > 1/2 then TrustStage.KBT
  else TrustStage.CBT

/-- Embeds TrustEngine.calculate_violation_penalty. -/
def calculate_violation_penalty (current_score : ℚ) : ℚ :=
  let current_stage := get_trust_stage current_score
  let target_score :=
    if current_stage = TrustStage.IBT then 8/10
    else if current_stage = TrustStage.KBT then 1/2
    else current_score
  if target_score ≥ current_score then max 0 (current_score - 1/10)
  else target_score

/-- Embeds TrustEngine.get_probation_floor. -/
def get_probation_floor : ℚ := PROBATION_FLOOR_SCI

/-- The conjunction of the two deal preconditions on
    TrustEngine.calculate_transitive_trust: every score lies in [0,1] and
    the path has at most MAX_HOPS entries.  deal checks these at call time
    and raises PreContractError when they fail. -/
def transitive_trust_pre (trust_path : List ℚ) : Bool :=
  trust_path.all (fun score => decide (0 ≤ score) && decide (score ≤ 1)) &&
    decide (trust_path.length ≤ MAX_HOPS)

/-- Embeds the body of TrustEngine.calculate_transitive_trust (the code
    that runs once the deal preconditions have been checked). -/
def transitive_trust_body (trust_path : List ℚ) : ℚ :=
  if trust_path = [] then 0
  else if trust_path.length > MAX_HOPS then 0
  else
    trust_path.tail.foldl
      (fun trust next_link => trust * next_link * DAMPING_FACTOR)
      (trust_path.headD 0)

/-- Embeds TrustEngine.calculate_transitive_trust including its deal
    precondition decorators: a call violating a precondition raises, which
    we render as an error value. -/
def calculate_transitive_trust (trust_path : List ℚ) : Except String ℚ :=
  if transitive_trust_pre trust_path then
    Except.ok (transitive_trust_body trust_path)
  else Except.error "PreContractError"

/-- Embeds TrustEngine.normalize_trust_vector. -/
def normalize_trust_vector (scores : List ℚ) : List ℚ :=
  let total := scores.sum
  if total = 0 then
    if scores = [] then []
    else List.replicate scores.length ((1 : ℚ) / scores.length)
  else scores.map (fun s => s / total)

/-- Embeds the score computation of TrustManager.update_trust_ewma
    (trust_manager.py): outcomes below 0.5 route through the violation
    penalty, others through the EWMA update, and the probation floor is
    applied afterwards when the agent is in probation. -/
def update_trust_ewma_score (current_score outcome_score : ℚ)
    (context : TrustContext) (in_probation : Bool) : ℚ :=
  let new_score :=
    if outcome_score < 1/2 then calculate_violation_penalty current_score
    else calculate_ewma_update current_score outcome_score context
  if in_probation then max new_score get_probation_floor else new_score

/-! ## Theorems about the trust engine -/

theorem get_trust_stage_ibt (c : ℚ) (h : c > 8/10) :
    get_trust_stage c = TrustStage.IBT := by
  unfold get_trust_stage
  rw [if_pos h]

theorem get_trust_stage_kbt (c : ℚ) (h8 : ¬ c > 8/10) (h5 : c > 1/2) :
    get_trust_stage c = TrustStage.KBT := by
  unfold get_trust_stage
  rw [if_neg h8, if_pos h5]

theorem get_trust_stage_cbt (c : ℚ) (h8 : ¬ c > 8/10) (h5 : ¬ c > 1/2) :
    get_trust_stage c = TrustStage.CBT := by
  unfold get_trust_stage
  rw [if_neg h8, if_neg h5]

theorem violation_penalty_of_ibt (c : ℚ) (h : c > 8/10) :
    calculate_violation_penalty c = 8/10 := by
  simp only [calculate_violation_penalty, get_trust_stage_ibt c h]
  split_ifs <;> first | rfl | (exfalso; linarith) | simp_all

theorem violation_penalty_of_kbt (c : ℚ) (h8 : ¬ c > 8/10) (h5 : c > 1/2) :
    calculate_violation_penalty c = 1/2 := by
  simp only [calculate_violation_penalty, get_trust_stage_kbt c h8 h5]
  split_ifs <;> first | rfl | (exfalso; linarith) | simp_all

theorem violation_penalty_of_cbt (c : ℚ) (h8 : ¬ c > 8/10) (h5 : ¬ c > 1/2) :
    calculate_violation_penalty c = max 0 (c - 1/10) := by
  simp only [calculate_violation_penalty, get_trust_stage_cbt c h8 h5]
  split_ifs <;> first | rfl | (exfalso; linarith) | simp_all

/-- C3: for scores in [0,1] the EWMA update returns
    λ·current + (1−λ)·outcome, the result stays in [0,1], HIGH_RISK uses
    λ = 0.94 (never 0.97) and LOW_RISK uses λ = 0.97. -/
theorem ewma_update_formula_and_bounds (c o : ℚ) (ctx : TrustContext)
    (hc0 : 0 ≤ c) (hc1 : c ≤ 1) (ho0 : 0 ≤ o) (ho1 : o ≤ 1) :
    calculate_ewma_update c o ctx = get_lambda ctx * c + (1 - get_lambda ctx) * o ∧
    0 ≤ calculate_ewma_update c o ctx ∧
    calculate_ewma_update c o ctx ≤ 1 ∧
    get_lambda TrustContext.HIGH_RISK = 94/100 ∧
    get_lambda TrustContext.HIGH_RISK ≠ 97/100 ∧
    get_lambda TrustContext.LOW_RISK = 97/100 := by
  have hhigh : get_lambda TrustContext.HIGH_RISK = 94/100 := rfl
  have hlow : get_lambda TrustContext.LOW_RISK = 97/100 := rfl
  refine ⟨rfl, ?_, ?_, hhigh, by rw [hhigh]; norm_num, hlow⟩ <;>
    cases ctx <;>
    simp only [calculate_ewma_update, hhigh, hlow] <;>
    linarith

/-- Witness for the C3 theorem at current = 1/2, outcome = 1, HIGH_RISK. -/
theorem ewma_update_formula_and_bounds_witness :
    calculate_ewma_update (1/2) 1 TrustContext.HIGH_RISK =
      get_lambda TrustContext.HIGH_RISK * (1/2) +
        (1 - get_lambda TrustContext.HIGH_RISK) * 1 ∧
    0 ≤ calculate_ewma_update (1/2) 1 TrustContext.HIGH_RISK ∧
    calculate_ewma_update (1/2) 1 TrustContext.HIGH_RISK ≤ 1 ∧
    get_lambda TrustContext.HIGH_RISK = 94/100 ∧
    get_lambda TrustContext.HIGH_RISK ≠ 97/100 ∧
    get_lambda TrustContext.LOW_RISK = 97/100 :=
  ewma_update_formula_and_bounds (1/2) 1 TrustContext.HIGH_RISK
    (by norm_num) (by norm_num) (by norm_num) (by norm_num)

/-- C2 counterexample: at current score 0 the violation penalty returns 0,
    which is not strictly below the current score, refuting the claim that
    the result is strictly less than the current score for every current
    score in [0,1]. -/
theorem violation_penalty_not_strict_at_zero :
    calculate_violation_penalty 0 = 0 ∧ ¬ calculate_violation_penalty 0 < 0 := by
  have h : calculate_violation_penalty 0 = max 0 (0 - 1/10) :=
    violation_penalty_of_cbt 0 (by norm_num) (by norm_num)
  rw [h]
  norm_num

/-- C2 as amended: a violation outcome (below 0.5) routes the update
    through calculate_violation_penalty; its result is strictly below the
    current score whenever the current score is positive (at 0 it stays 0,
    the floor); from IBT the resulting stage is KBT and from KBT it is
    CBT — at least one stage down whenever a lower stage exists. -/
theorem violation_penalty_demotes (current outcome : ℚ) (ctx : TrustContext)
    (h0 : 0 ≤ current) (h1 : current ≤ 1) (ho : outcome < 1/2) :
    update_trust_ewma_score current outcome ctx false =
      calculate_violation_penalty current ∧
    (0 < current → calculate_violation_penalty current < current) ∧
    (get_trust_stage current = TrustStage.IBT →
      get_trust_stage (calculate_violation_penalty current) = TrustStage.KBT) ∧
    (get_trust_stage current = TrustStage.KBT →
      get_trust_stage (calculate_violation_penalty current) = TrustStage.CBT) ∧
    (current = 0 → calculate_violation_penalty current = 0) := by
  have hroute : update_trust_ewma_score current outcome ctx false =
      calculate_violation_penalty current := by
    simp only [update_trust_ewma_score, if_pos ho, Bool.false_eq_true,
      if_false]
  by_cases h8 : current > 8/10
  · have hstage := get_trust_stage_ibt current h8
    have hpen := violation_penalty_of_ibt current h8
    refine ⟨hroute, fun _ => ?_, fun _ => ?_, fun hk => ?_, fun hz => ?_⟩
    · rw [hpen]; linarith
    · rw [hpen]
      exact get_trust_stage_kbt _ (by norm_num) (by norm_num)
    · rw [hstage] at hk; cases hk
    · exfalso; rw [hz] at h8; norm_num at h8
  · by_cases h5 : current > 1/2
    · have hstage := get_trust_stage_kbt current h8 h5
      have hpen := violation_penalty_of_kbt current h8 h5
      refine ⟨hroute, fun _ => ?_, fun hi => ?_, fun _ => ?_, fun hz => ?_⟩
      · rw [hpen]; linarith
      · rw [hstage] at hi; cases hi
      · rw [hpen]
        exact get_trust_stage_cbt _ (by norm_num) (by norm_num)
      · exfalso; rw [hz] at h5; norm_num at h5
    · have hstage := get_trust_stage_cbt current h8 h5
      have hpen := violation_penalty_of_cbt current h8 h5
      refine ⟨hroute, fun hpos => ?_, fun hi => ?_, fun hk => ?_, fun hz => ?_⟩
      · rw [hpen]; exact max_lt hpos (by linarith)
      · rw [hstage] at hi; cases hi
      · rw [hstage] at hk; cases hk
      · rw [hpen, hz]; norm_num

/-- Witness for the C2 amended theorem at current = 9/10, outcome = 0. -/
theorem violation_penalty_demotes_witness :
    update_trust_ewma_score (9/10) 0 TrustContext.HIGH_RISK false =
      calculate_violation_penalty (9/10) ∧
    (0 < (9/10 : ℚ) → calculate_violation_penalty (9/10) < 9/10) ∧
    (get_trust_stage (9/10) = TrustStage.IBT →
      get_trust_stage (calculate_violation_penalty (9/10)) = TrustStage.KBT) ∧
    (get_trust_stage (9/10) = TrustStage.KBT →
      get_trust_stage (calculate_violation_penalty (9/10)) = TrustStage.CBT) ∧
    ((9/10 : ℚ) = 0 → calculate_violation_penalty (9/10) = 0) :=
  violation_penalty_demotes (9/10) 0 TrustContext.HIGH_RISK
    (by norm_num) (by norm_num) (by norm_num)

/-- C6 counterexample: on a four-hop path the deal precondition rejects the
    call (a contract error is raised), so the function does not return 0. -/
theorem transitive_trust_rejects_long_path :
    calculate_transitive_trust [9/10, 9/10, 9/10, 9/10] =
      Except.error "PreContractError" ∧
    Except.error "PreContractError" ≠
      (Except.ok 0 : Except String ℚ) := by
  constructor
  · have hfalse : transitive_trust_pre [9/10, 9/10, 9/10, 9/10] = false := by
      simp [transitive_trust_pre, MAX_HOPS]
    have hneg : ¬ (transitive_trust_pre [9/10, 9/10, 9/10, 9/10] = true) := by
      simp [hfalse]
    rw [calculate_transitive_trust, if_neg hneg]
  · intro h; cases h

/-- C6 as amended: a path longer than MAX_HOPS is rejected by the deal
    precondition (the unreachable body would return 0 for it); within the
    contract, [0.9, 0.9] evaluates to 0.405 and in general the result is
    the head score folded with each later hop score and the damping
    factor 0.5. -/
theorem transitive_trust_spec (trust_path : List ℚ)
    (hlong : trust_path.length > MAX_HOPS) :
    calculate_transitive_trust trust_path = Except.error "PreContractError" ∧
    transitive_trust_body trust_path = 0 ∧
    calculate_transitive_trust [9/10, 9/10] = Except.ok (81/200) ∧
    (∀ (t : ℚ) (rest : List ℚ), transitive_trust_pre (t :: rest) = true →
      calculate_transitive_trust (t :: rest) =
        Except.ok (rest.foldl
          (fun trust next_link => trust * next_link * DAMPING_FACTOR) t)) := by
  have hne : trust_path ≠ [] := by
    intro h; rw [h] at hlong; simp [MAX_HOPS] at hlong
  refine ⟨?_, ?_, ?_, ?_⟩
  · have hfalse : transitive_trust_pre trust_path = false := by
      have : decide (trust_path.length ≤ MAX_HOPS) = false := by
        simpa [decide_eq_false_iff_not] using Nat.not_le.mpr hlong
      simp [transitive_trust_pre, this]
    simp [calculate_transitive_trust, hfalse]
  · simp [transitive_trust_body, hne, hlong]
  · have hpre2 : transitive_trust_pre [9/10, 9/10] = true := by
      norm_num [transitive_trust_pre, MAX_HOPS]
    have hbody2 : transitive_trust_body [(9:ℚ)/10, 9/10] = 81/200 := by
      rw [transitive_trust_body, if_neg (List.cons_ne_nil _ _),
        if_neg (by decide)]
      norm_num [DAMPING_FACTOR]
    rw [calculate_transitive_trust, if_pos hpre2, hbody2]
  · intro t rest hpre
    have hlen : ¬ ((t :: rest).length > MAX_HOPS) := by
      have hp := hpre
      simp only [transitive_trust_pre, Bool.and_eq_true,
        decide_eq_true_eq] at hp
      exact Nat.not_lt.mpr hp.2
    rw [calculate_transitive_trust, if_pos hpre, transitive_trust_body,
      if_neg (List.cons_ne_nil t rest), if_neg hlen]
    simp

/-- Witness for the C6 amended theorem on the path [1,1,1,1]. -/
theorem transitive_trust_spec_witness :
    calculate_transitive_trust [1, 1, 1, 1] =
      Except.error "PreContractError" ∧
    transitive_trust_body [1, 1, 1, 1] = 0 ∧
    calculate_transitive_trust [9/10, 9/10] = Except.ok (81/200) ∧
    (∀ (t : ℚ) (rest : List ℚ), transitive_trust_pre (t :: rest) = true →
      calculate_transitive_trust (t :: rest) =
        Except.ok (rest.foldl
          (fun trust next_link => trust * next_link * DAMPING_FACTOR) t)) :=
  transitive_trust_spec [1, 1, 1, 1] (by norm_num [MAX_HOPS])

/-- C10: on a non-empty all-zero score vector, normalize_trust_vector
    returns the uniform distribution 1/n in every slot, whose sum is 1;
    on the empty list it returns the empty list. -/
theorem normalize_trust_vector_all_zero (scores : List ℚ)
    (hne : scores ≠ []) (hz : ∀ s ∈ scores, s = 0) :
    normalize_trust_vector scores =
      List.replicate scores.length ((1 : ℚ) / scores.length) ∧
    (normalize_trust_vector scores).sum = 1 ∧
    normalize_trust_vector [] = [] := by
  have hsum : scores.sum = 0 := List.sum_eq_zero hz
  have huni : normalize_trust_vector scores =
      List.replicate scores.length ((1 : ℚ) / scores.length) := by
    simp [normalize_trust_vector, hsum, hne]
  refine ⟨huni, ?_, by simp [normalize_trust_vector]⟩
  rw [huni, List.sum_replicate]
  have hlen : (scores.length : ℚ) ≠ 0 := by
    exact_mod_cast fun h => hne (List.length_eq_zero.mp h)
  rw [nsmul_eq_mul]
  field_simp

/-- Witness for the C10 theorem on the vector [0, 0, 0]. -/
theorem normalize_trust_vector_all_zero_witness :
    normalize_trust_vector [0, 0, 0] =
      List.replicate ([0, 0, 0] : List ℚ).length
        ((1 : ℚ) / ([0, 0, 0] : List ℚ).length) ∧
    (normalize_trust_vector [0, 0, 0]).sum = 1 ∧
    normalize_trust_vector [] = [] :=
  normalize_trust_vector_all_zero [0, 0, 0] (by simp) (by simp)

/-! ## Mode Enforcer (advanced_features.py) -/

def L1_SAMPLE_RATE : ℚ := 10/100

/-- Embeds ModeEnforcer.should_verify.  The stored operational mode is the
    mode string read from the system_state table; the LEAN-mode 10% sample
    draw (random.random() < L1_SAMPLE_RATE) is passed in as the boolean
    sampled. -/
def should_verify (mode : String) (risk_grade : String) (sampled : Bool) :
    Bool × String :=
  if mode = "NORMAL" then (true, "NORMAL mode: Full verification")
  else if mode = "LEAN" then
    if risk_grade = "L1" then
      if sampled then (true, "LEAN mode: L1 sampled for verification")
      else (false, "LEAN mode: L1 skipped (sampling)")
    else (true, "LEAN mode: L2/L3 full verification")
  else if mode = "SURGE" then
    if risk_grade = "L1" then (false, "SURGE mode: L1 deferred")
    else (true, "SURGE mode: L2/L3 prioritized")
  else if mode = "SAFE" then
    if risk_grade = "L3" then (true, "SAFE mode: L3 requires Overseer")
    else (false, "SAFE mode: Non-L3 suspended")
  else (true, "Unknown mode: Defaulting to verify")

/-- C7: in every stored operational mode (NORMAL, LEAN, SURGE, SAFE, or any
    other mode string) and for every sampling draw, should_verify on grade
    L3 answers true: L3 verification is never skipped. -/
theorem should_verify_l3_always (mode : String) (sampled : Bool) :
    (should_verify mode "L3" sampled).1 = true := by
  unfold should_verify
  split_ifs <;> simp_all

/-! ## Source Credibility Manager (credibility_manager.py) -/

inductive ReferenceTier where
  | T1
  | T2
  | T3
  | T4
deriving DecidableEq, Repr

/-- Embeds the TIER_CREDIBILITY table. -/
def TIER_CREDIBILITY (tier : ReferenceTier) : ℚ :=
  match tier with
  | ReferenceTier.T1 => 100
  | ReferenceTier.T2 => 90
  | ReferenceTier.T3 => 70
  | ReferenceTier.T4 => 45

def SCI_ESCALATE_L2 : ℚ := 60

def SCI_ESCALATE_L3 : ℚ := 40

def SCI_REJECT : ℚ := 35

/-- The SCI-relevant columns of a source_credibility row. -/
structure SourceSci where
  base_credibility : ℚ
  current_sci : ℚ
  verification_failures : Nat
deriving DecidableEq, Repr

/-- Embeds the row produced by CredibilityManager.register_source for a
    given tier: current_sci starts at the tier base credibility with zero
    failures. -/
def register_source (tier : ReferenceTier) : SourceSci :=
  { base_credibility := TIER_CREDIBILITY tier
    current_sci := TIER_CREDIBILITY tier
    verification_failures := 0 }

/-- Embeds the state update of
    CredibilityManager.update_sci_on_verification on a registered row:
    success adds 2 capped at the base, failure subtracts 10 floored at 0. -/
def update_sci_on_verification (row : SourceSci) (success : Bool) :
    SourceSci :=
  if success then
    { row with current_sci := min row.base_credibility (row.current_sci + 2) }
  else
    { row with
        current_sci := max 0 (row.current_sci - 10)
        verification_failures := row.verification_failures + 1 }

/-- Embeds CredibilityManager.should_escalate_risk given the current SCI
    of the (already registered) source. -/
def should_escalate_risk (sci : ℚ) (current_grade : String) :
    Bool × String :=
  if sci < SCI_REJECT then (true, "REJECT: Source SCI below threshold")
  else if current_grade = "L1" ∧ sci < SCI_ESCALATE_L2 then (true, "L2")
  else if current_grade = "L2" ∧ sci < SCI_ESCALATE_L3 then (true, "L3")
  else (false, current_grade)

/-- C8: a newly registered T4 source has SCI 45; a failed verification
    moves any SCI to max 0 (sci − 10) and a success to
    min base (sci + 2); after exactly two failures the T4 SCI is 25, which
    is below the reject threshold 35, so should_escalate_risk answers
    REJECT for every current grade. -/
theorem sci_two_failures_reject (grade : String) :
    (register_source ReferenceTier.T4).current_sci = 45 ∧
    (∀ row : SourceSci, (update_sci_on_verification row false).current_sci =
      max 0 (row.current_sci - 10)) ∧
    (∀ row : SourceSci, (update_sci_on_verification row true).current_sci =
      min row.base_credibility (row.current_sci + 2)) ∧
    (update_sci_on_verification
      (update_sci_on_verification (register_source ReferenceTier.T4) false)
      false).current_sci = 25 ∧
    (25 : ℚ) < SCI_REJECT ∧
    should_escalate_risk 25 grade = (true, "REJECT: Source SCI below threshold") := by
  refine ⟨rfl, fun row => rfl, fun row => rfl, ?_, ?_, ?_⟩
  · show max 0 (max 0 ((45 : ℚ) - 10) - 10) = 25
    norm_num
  · norm_num [SCI_REJECT]
  · unfold should_escalate_risk
    rw [if_pos (by norm_num [SCI_REJECT])]

/-! ## String helpers for the sentinel embedding

Python str operations are modelled on the underlying character lists. -/

/-- True when the first list is a prefix of the second. -/
def listStartsWith : List Char → List Char → Bool
  | [], _ => true
  | _ :: _, [] => false
  | c :: cs, h :: hs => c == h && listStartsWith cs hs

/-- True when needle occurs as a contiguous sublist of hay: the Python
    substring test (needle in hay). -/
def listHasSub (needle : List Char) : List Char → Bool
  | [] => listStartsWith needle []
  | h :: t => listStartsWith needle (h :: t) || listHasSub needle t

/-- Python str.endswith on character lists. -/
def strEndsWith (s suffix : String) : Bool :=
  listStartsWith suffix.data.reverse s.data.reverse

/-- Python str.lower restricted to ASCII case folding. -/
def toLowerList (s : List Char) : List Char :=
  s.map Char.toLower

/-- The whitespace characters recognised by Python str.strip and by the
    regex class backslash-s (ASCII range). -/
def isPySpace (c : Char) : Bool :=
  c == ' ' || c == '\t' || c == '\n' || c == '\r' || c == '\x0b' || c == '\x0c'

/-! ## A small regular-expression engine

Embeds the re.search calls of sentinel_engine.py.  The patterns used by
the engine are anchor-free sequences of literals, character classes,
counted repetitions and alternations, so Brzozowski derivatives decide
them.  IGNORECASE matching is rendered by lowering the subject string and
using lowercase literals with case-closed character classes. -/

inductive Rx where
  | emp
  | eps
  | cls (p : Char → Bool)
  | seq (a b : Rx)
  | alt (a b : Rx)
  | star (a : Rx)

/-- True when the regex accepts the empty string. -/
def Rx.nullable : Rx → Bool
  | Rx.emp => false
  | Rx.eps => true
  | Rx.cls _ => false
  | Rx.seq a b => a.nullable && b.nullable
  | Rx.alt a b => a.nullable || b.nullable
  | Rx.star _ => true

/-- Smart sequence constructor, simplifying absorbing and unit cases to
    keep iterated derivatives small. -/
def Rx.mkSeq : Rx → Rx → Rx
  | Rx.emp, _ => Rx.emp
  | _, Rx.emp => Rx.emp
  | Rx.eps, b => b
  | a, Rx.eps => a
  | a, b => Rx.seq a b

/-- Smart alternation constructor. -/
def Rx.mkAlt : Rx → Rx → Rx
  | Rx.emp, b => b
  | a, Rx.emp => a
  | a, b => Rx.alt a b

/-- Brzozowski derivative with respect to one character. -/
def Rx.deriv : Rx → Char → Rx
  | Rx.emp, _ => Rx.emp
  | Rx.eps, _ => Rx.emp
  | Rx.cls p, c => if p c then Rx.eps else Rx.emp
  | Rx.seq a b, c =>
    if a.nullable then Rx.mkAlt (Rx.mkSeq (a.deriv c) b) (b.deriv c)
    else Rx.mkSeq (a.deriv c) b
  | Rx.alt a b, c => Rx.mkAlt (a.deriv c) (b.deriv c)
  | Rx.star a, c => Rx.mkSeq (a.deriv c) (Rx.star a)

/-- True when some prefix of the list matches the regex. -/
def Rx.matchesPrefixOf (r : Rx) : List Char → Bool
  | [] => r.nullable
  | c :: cs => r.nullable || (r.deriv c).matchesPrefixOf cs

/-- Embeds re.search: true when the regex matches at some position of the
    subject. -/
def rxSearch (r : Rx) (s : List Char) : Bool :=
  s.tails.any (fun t => r.matchesPrefixOf t)

/-- Literal-string regex. -/
def rxStr (s : String) : Rx :=
  s.data.foldr (fun c acc => Rx.seq (Rx.cls (fun x => x == c)) acc) Rx.eps

/-- Exactly n repetitions. -/
def rxRep (r : Rx) : Nat → Rx
  | 0 => Rx.eps
  | n + 1 => Rx.seq r (rxRep r n)

/-- At least n repetitions: the regex-class quantifier with a lower
    bound only. -/
def rxAtLeast (r : Rx) (n : Nat) : Rx :=
  Rx.seq (rxRep r n) (Rx.star r)

/-- One or more repetitions: the + quantifier. -/
def rxPlus (r : Rx) : Rx :=
  Rx.seq r (Rx.star r)

/-- Chain of sequences. -/
def rxCat (rs : List Rx) : Rx :=
  rs.foldr Rx.seq Rx.eps

/-- Character classes used by the sentinel patterns (case-closed, so that
    matching a lowercased subject agrees with IGNORECASE matching). -/
def isAsciiDigit (c : Char) : Bool := 48 ≤ c.toNat && c.toNat ≤ 57

def isAsciiLower (c : Char) : Bool := 97 ≤ c.toNat && c.toNat ≤ 122

def isAsciiUpper (c : Char) : Bool := 65 ≤ c.toNat && c.toNat ≤ 90

def isAsciiAlnum (c : Char) : Bool :=
  isAsciiDigit c || isAsciiLower c || isAsciiUpper c

/-- The single-quote character, written by code point. -/
def quoteChar : Char := Char.ofNat 39

/-- The regex class of a quote: a single or double quote. -/
def isQuote (c : Char) : Bool := c == quoteChar || c == '"'

def rxWs : Rx := Rx.cls isPySpace

def rxQuote : Rx := Rx.cls isQuote

def rxNotQuote : Rx := Rx.cls (fun c => !(isQuote c))

/-! ## Sentinel Engine (sentinel_engine.py) -/

def COMPLEXITY_THRESHOLD_L2 : Nat := 10

def COMPLEXITY_THRESHOLD_L3 : Nat := 20

/-- Embeds SentinelEngine.L3_FILE_PATTERNS.  Each pattern is a literal
    regex, so re.search on the lowercased path is the substring test. -/
def L3_FILE_PATTERNS : List String :=
  ["auth", "login", "password", "credential",
   "payment", "billing", "finance",
   "encrypt", "decrypt", "key", "secret",
   "migration", "schema", "database",
   "admin", "root", "sudo"]

/-- Embeds SentinelEngine.SECRET_PATTERNS as regexes over a lowercased
    subject (the source searches with re.IGNORECASE). -/
def SECRET_PATTERNS : List Rx :=
  [Rx.seq (rxStr "sk_live_") (rxAtLeast (Rx.cls isAsciiAlnum) 20),
   Rx.seq (rxStr "sk_test_") (rxAtLeast (Rx.cls isAsciiAlnum) 20),
   Rx.seq (rxStr "aiza")
     (rxRep (Rx.cls (fun c => isAsciiAlnum c || c == '-' || c == '_')) 35),
   Rx.seq (rxStr "ghp_") (rxRep (Rx.cls isAsciiAlnum) 36),
   rxCat [rxStr "aws_access_key_id", Rx.star rxWs, rxStr "=", Rx.star rxWs,
     rxQuote,
     rxRep (Rx.cls (fun c => isAsciiLower c || isAsciiDigit c)) 20,
     rxQuote],
   rxCat [rxStr "password", Rx.star rxWs, rxStr "=", Rx.star rxWs,
     rxQuote, rxAtLeast rxNotQuote 4, rxQuote],
   rxCat [rxStr "api_key", Rx.star rxWs, rxStr "=", Rx.star rxWs,
     rxQuote, rxAtLeast rxNotQuote 8, rxQuote]]

/-- Embeds SentinelEngine.UNSAFE_FUNCTIONS. -/
def UNSAFE_FUNCTIONS : List String :=
  ["eval(", "exec(", "compile(",
   "os.system(", "subprocess.call(", "subprocess.Popen(",
   "pickle.loads(", "__import__(",
   "open("]

/-- Embeds the l3_content_patterns local list of
    SentinelEngine.classify_risk_grade (IGNORECASE, hence lowercase
    literals over a lowercased subject). -/
def L3_CONTENT_PATTERNS : List Rx :=
  [rxCat [rxStr "def", rxPlus rxWs, rxStr "authenticate"],
   rxCat [rxStr "def", rxPlus rxWs, rxStr "authorize"],
   rxCat [rxStr "create", rxPlus rxWs, rxStr "table"],
   rxCat [rxStr "alter", rxPlus rxWs, rxStr "table"],
   rxCat [rxStr "drop", rxPlus rxWs, rxStr "table"],
   Rx.alt (rxStr "aes") (Rx.alt (rxStr "rsa") (Rx.alt (rxStr "sha256")
     (Rx.alt (rxStr "bcrypt") (rxStr "argon2"))))]

inductive RiskGrade where
  | L1
  | L2
  | L3
deriving DecidableEq, Repr

/-- The string value of a risk grade (the Enum value field). -/
def RiskGrade.value : RiskGrade → String
  | RiskGrade.L1 => "L1"
  | RiskGrade.L2 => "L2"
  | RiskGrade.L3 => "L3"

/-- Embeds SentinelEngine.classify_risk_grade. -/
def classify_risk_grade (file_path content : String) : RiskGrade :=
  let file_lower := toLowerList file_path.data
  if L3_FILE_PATTERNS.any (fun pattern => listHasSub pattern.data file_lower) then
    RiskGrade.L3
  else if L3_CONTENT_PATTERNS.any
      (fun pattern => rxSearch pattern (toLowerList content.data)) then
    RiskGrade.L3
  else if content.data.any (fun c => !(isPySpace c)) then RiskGrade.L2
  else RiskGrade.L1

/-- Embeds SentinelEngine.check_secrets: the loop appends
    HARDCODED_SECRET once and breaks at the first matching pattern, so
    the findings list is a singleton exactly when some pattern matches. -/
def check_secrets (content : String) : List String :=
  if SECRET_PATTERNS.any (fun pattern => rxSearch pattern (toLowerList content.data)) then
    ["HARDCODED_SECRET"]
  else []

/-- Embeds SentinelEngine.check_unsafe_functions. -/
def check_unsafe_functions (content : String) : List String :=
  (UNSAFE_FUNCTIONS.filter (fun func => listHasSub func.data content.data)).map
    (fun func => "UNSAFE_FUNCTION:" ++ func)

/-! ## Python AST fragment for the complexity check

check_cyclomatic_complexity walks the ast.parse tree counting branch
nodes.  The embedding models the node kinds the walk distinguishes; every
other node kind is collapsed into other.  The Python parser itself is an
external collaborator: audits receive its result as an
Option PyNode (none models a SyntaxError). -/

inductive PyNode where
  | module (body : List PyNode)
  | functionDef (name : String) (body : List PyNode)
  | asyncFunctionDef (name : String) (body : List PyNode)
  | ifStmt (body : List PyNode)
  | whileStmt (body : List PyNode)
  | forStmt (body : List PyNode)
  | exceptHandler (body : List PyNode)
  | withStmt (body : List PyNode)
  | assertStmt (body : List PyNode)
  | comprehension (body : List PyNode)
  | boolOp (nvalues : Nat) (body : List PyNode)
  | other (body : List PyNode)

/-- The child nodes of a node (ast.iter_child_nodes). -/
def PyNode.children : PyNode → List PyNode
  | PyNode.module b => b
  | PyNode.functionDef _ b => b
  | PyNode.asyncFunctionDef _ b => b
  | PyNode.ifStmt b => b
  | PyNode.whileStmt b => b
  | PyNode.forStmt b => b
  | PyNode.exceptHandler b => b
  | PyNode.withStmt b => b
  | PyNode.assertStmt b => b
  | PyNode.comprehension b => b
  | PyNode.boolOp _ b => b
  | PyNode.other b => b

mutual

def PyNode.size : PyNode → Nat
  | PyNode.module b => 1 + sizeList b
  | PyNode.functionDef _ b => 1 + sizeList b
  | PyNode.asyncFunctionDef _ b => 1 + sizeList b
  | PyNode.ifStmt b => 1 + sizeList b
  | PyNode.whileStmt b => 1 + sizeList b
  | PyNode.forStmt b => 1 + sizeList b
  | PyNode.exceptHandler b => 1 + sizeList b
  | PyNode.withStmt b => 1 + sizeList b
  | PyNode.assertStmt b => 1 + sizeList b
  | PyNode.comprehension b => 1 + sizeList b
  | PyNode.boolOp _ b => 1 + sizeList b
  | PyNode.other b => 1 + sizeList b

def sizeList : List PyNode → Nat
  | [] => 0
  | n :: rest => PyNode.size n + sizeList rest

end

theorem sizeList_append (a b : List PyNode) :
    sizeList (a ++ b) = sizeList a + sizeList b := by
  induction a with
  | nil => simp [sizeList]
  | cons n rest ih => simp [sizeList, ih]; ring

theorem size_children_lt (n : PyNode) :
    sizeList n.children < PyNode.size n := by
  cases n <;> simp [PyNode.children, PyNode.size] <;> omega

/-- Embeds ast.walk: breadth-first traversal yielding the queued nodes
    followed by their descendants. -/
def pyWalk (queue : List PyNode) : List PyNode :=
  match queue with
  | [] => []
  | n :: rest => n :: pyWalk (rest ++ n.children)
termination_by sizeList queue
decreasing_by
  simp only [sizeList, sizeList_append]
  have := size_children_lt n
  omega

/-- The per-node complexity contribution counted by the inner loop of
    check_cyclomatic_complexity: branch statements add one, a BoolOp
    adds len(values) − 1. -/
def walkContribution : PyNode → Nat
  | PyNode.ifStmt _ => 1
  | PyNode.whileStmt _ => 1
  | PyNode.forStmt _ => 1
  | PyNode.exceptHandler _ => 1
  | PyNode.withStmt _ => 1
  | PyNode.assertStmt _ => 1
  | PyNode.comprehension _ => 1
  | PyNode.boolOp nvalues _ => nvalues - 1
  | _ => 0

/-- McCabe complexity of one function node: base 1 plus the walk
    contributions over the node and its descendants. -/
def complexityOf (n : PyNode) : Nat :=
  1 + ((pyWalk [n]).map walkContribution).sum

/-- Embeds SentinelEngine.check_cyclomatic_complexity.  A parse failure
    (none) yields (0, []): the stage is skipped.  Otherwise every
    function definition in the walk updates the running maximum and emits
    a critical finding above COMPLEXITY_THRESHOLD_L3 or an advisory WARN
    finding above COMPLEXITY_THRESHOLD_L2. -/
def check_cyclomatic_complexity (parsed : Option PyNode) :
    Nat × List String :=
  match parsed with
  | none => (0, [])
  | some tree =>
    (pyWalk [tree]).foldl
      (fun acc node =>
        match node with
        | PyNode.functionDef name _ =>
          let complexity := complexityOf node
          let max_complexity :=
            if complexity > acc.1 then complexity else acc.1
          let findings :=
            if complexity > COMPLEXITY_THRESHOLD_L3 then
              acc.2 ++ ["HIGH_COMPLEXITY:" ++ name ++ "=" ++ toString complexity]
            else if complexity > COMPLEXITY_THRESHOLD_L2 then
              acc.2 ++ ["WARN:COMPLEXITY:" ++ name ++ "=" ++ toString complexity]
            else acc.2
          (max_complexity, findings)
        | PyNode.asyncFunctionDef name _ =>
          let complexity := complexityOf node
          let max_complexity :=
            if complexity > acc.1 then complexity else acc.1
          let findings :=
            if complexity > COMPLEXITY_THRESHOLD_L3 then
              acc.2 ++ ["HIGH_COMPLEXITY:" ++ name ++ "=" ++ toString complexity]
            else if complexity > COMPLEXITY_THRESHOLD_L2 then
              acc.2 ++ ["WARN:COMPLEXITY:" ++ name ++ "=" ++ toString complexity]
            else acc.2
          (max_complexity, findings)
        | _ => acc)
      (0, [])

/-! ## The audit pipeline -/

/-- The result record of SentinelEngine.audit (AuditResult in
    sentinel_engine.py).  The latency_ms field is wall-clock time and is
    not modelled. -/
structure AuditResult where
  verdict : String
  risk_grade : String
  rationale : String
  failure_modes : List String
  pii_redacted : Bool
  requires_approval : Bool
deriving DecidableEq, Repr

/-- The environment-dependent stage outputs consumed by one audit call:
    the findings of check_static_analysis (external pylint/mypy
    subprocesses), the ast.parse result, the findings of
    check_citation_depth and check_quote_context (re.findall heuristics
    over the content), the findings of bounded_model_check (external
    CBMC/Z3 collaborators) and whether check_pii_exposure found a PII
    pattern.  No claim constrains the internals of these stages, so the
    audit embedding is universally quantified over their outputs. -/
structure AuditEnv where
  staticFindings : List String
  parse : Option PyNode
  citationFindings : List String
  quoteFindings : List String
  bmcFindings : List String
  piiFound : Bool

/-- True when a finding is advisory: the verdict filter of
    SentinelEngine.audit treats findings starting with WARN: as
    non-critical. -/
def startsWithWarn (finding : String) : Bool :=
  listStartsWith "WARN:".data finding.data

/-- The findings accumulated by one SentinelEngine.audit call, in stage
    order: secret and unsafe-function checks always run; the guarded
    static-analysis stage runs for .py paths or def-containing content;
    the complexity, citation-depth and quote-context stages run for
    L2/L3; the bounded-model-check stage runs for L3 only. -/
def audit_findings (file_path content : String) (env : AuditEnv) :
    List String :=
  let risk_grade := classify_risk_grade file_path content
  check_secrets content ++ check_unsafe_functions content ++
    (if strEndsWith file_path ".py" || listHasSub "def ".data content.data then
      env.staticFindings
    else []) ++
    (if risk_grade = RiskGrade.L2 ∨ risk_grade = RiskGrade.L3 then
      (check_cyclomatic_complexity env.parse).2 ++
        env.citationFindings ++ env.quoteFindings
    else []) ++
    (if risk_grade = RiskGrade.L3 then env.bmcFindings else [])

/-- The verdict-resolution tail of SentinelEngine.audit: L3 sets
    requires_approval; the critical findings are those without the WARN:
    prefix; a critical finding forces FAIL, else requires_approval forces
    L3_REQUIRED, else PASS. -/
def resolve_verdict (risk_grade : RiskGrade) (had_pii : Bool)
    (all_findings : List String) : AuditResult :=
  let requires_approval := decide (risk_grade = RiskGrade.L3)
  let critical_failures := all_findings.filter (fun f => !(startsWithWarn f))
  if critical_failures ≠ [] then
    { verdict := "FAIL"
      risk_grade := risk_grade.value
      rationale := String.intercalate "; " critical_failures
      failure_modes := all_findings
      pii_redacted := had_pii
      requires_approval := requires_approval }
  else if requires_approval then
    { verdict := "L3_REQUIRED"
      risk_grade := risk_grade.value
      rationale := "L3 artifact requires Overseer approval before commit."
      failure_modes := all_findings
      pii_redacted := had_pii
      requires_approval := requires_approval }
  else
    { verdict := "PASS"
      risk_grade := risk_grade.value
      rationale := "All " ++ risk_grade.value ++ " checks passed."
      failure_modes := all_findings
      pii_redacted := had_pii
      requires_approval := requires_approval }

/-- Embeds SentinelEngine.audit: risk classification, the PII flag from
    check_pii_exposure, the staged findings, and verdict resolution. -/
def audit (file_path content : String) (env : AuditEnv) : AuditResult :=
  resolve_verdict (classify_risk_grade file_path content) env.piiFound
    (audit_findings file_path content env)

/-- The empty stage environment: external stages report nothing, the
    parser fails, no PII found. -/
def emptyAuditEnv : AuditEnv :=
  { staticFindings := [], parse := none, citationFindings := [],
    quoteFindings := [], bmcFindings := [], piiFound := false }

/-! ## Theorems about the audit pipeline -/

theorem resolve_verdict_failure_modes (g : RiskGrade) (pii : Bool)
    (fs : List String) : (resolve_verdict g pii fs).failure_modes = fs := by
  simp only [resolve_verdict]
  split_ifs <;> rfl

theorem resolve_verdict_requires_approval (g : RiskGrade) (pii : Bool)
    (fs : List String) :
    (resolve_verdict g pii fs).requires_approval =
      decide (g = RiskGrade.L3) := by
  simp only [resolve_verdict]
  split_ifs <;> rfl

theorem resolve_verdict_fail (g : RiskGrade) (pii : Bool) (fs : List String)
    (h : fs.filter (fun f => !(startsWithWarn f)) ≠ []) :
    (resolve_verdict g pii fs).verdict = "FAIL" := by
  simp only [resolve_verdict]
  rw [if_pos h]

theorem resolve_verdict_l3 (pii : Bool) (fs : List String)
    (h : fs.filter (fun f => !(startsWithWarn f)) = []) :
    (resolve_verdict RiskGrade.L3 pii fs).verdict = "L3_REQUIRED" := by
  simp only [resolve_verdict]
  rw [if_neg (fun hc => hc h), if_pos (by simp)]

theorem resolve_verdict_pass (g : RiskGrade) (pii : Bool) (fs : List String)
    (h : fs.filter (fun f => !(startsWithWarn f)) = [])
    (hg : g ≠ RiskGrade.L3) :
    (resolve_verdict g pii fs).verdict = "PASS" := by
  simp only [resolve_verdict]
  rw [if_neg (fun hc => hc h), if_neg (by simp [hg])]

/-- C4: verdict resolution order of SentinelEngine.audit, for every path,
    content and stage environment: a critical (non-WARN) finding forces
    FAIL; otherwise an L3 classification forces the human-review verdict
    (spelled L3_REQUIRED by the code, NEEDS_HUMAN_REVIEW by the spec);
    otherwise PASS; and every artifact classified L3 comes back with
    requires_approval = true regardless of the findings. -/
theorem audit_verdict_resolution (file_path content : String)
    (env : AuditEnv) :
    ((audit file_path content env).failure_modes.filter
        (fun f => !(startsWithWarn f)) ≠ [] →
      (audit file_path content env).verdict = "FAIL") ∧
    ((audit file_path content env).failure_modes.filter
        (fun f => !(startsWithWarn f)) = [] →
      classify_risk_grade file_path content = RiskGrade.L3 →
      (audit file_path content env).verdict = "L3_REQUIRED") ∧
    ((audit file_path content env).failure_modes.filter
        (fun f => !(startsWithWarn f)) = [] →
      classify_risk_grade file_path content ≠ RiskGrade.L3 →
      (audit file_path content env).verdict = "PASS") ∧
    (classify_risk_grade file_path content = RiskGrade.L3 →
      (audit file_path content env).requires_approval = true) := by
  unfold audit
  rw [resolve_verdict_failure_modes, resolve_verdict_requires_approval]
  refine ⟨ ?_, ?_, ?_, ?_⟩
  · intro h
    exact resolve_verdict_fail _ _ _ h
  · intro h hg
    rw [hg]
    exact resolve_verdict_l3 _ _ h
  · intro h hg
    exact resolve_verdict_pass _ _ _ h hg
  · intro hg
    simp [hg]

/-- C5 evaluated at the failing input: content consisting of a bare
    open( call at a path with no L3 marker.  The dangerous-call finding
    UNSAFE_FUNCTION:open( does not carry the WARN: prefix, so the verdict
    filter counts it as critical and the audit fails on it alone, against
    the source comment (Flag for review, not auto-fail) and the spec. -/
theorem audit_open_call_fails :
    audit "notes.txt" "open(" emptyAuditEnv =
      { verdict := "FAIL"
        risk_grade := "L2"
        rationale := "UNSAFE_FUNCTION:open("
        failure_modes := ["UNSAFE_FUNCTION:open("]
        pii_redacted := false
        requires_approval := false } := by
  rfl

/-- C9: when ast.parse fails (parse = none) the complexity stage returns
    no findings and maximum complexity 0, and the parse failure alone
    never makes the audit verdict FAIL: if every recorded finding is
    advisory, the verdict is not FAIL. -/
theorem parse_failure_skips_complexity (file_path content : String)
    (env : AuditEnv) (hp : env.parse = none) :
    check_cyclomatic_complexity env.parse = (0, []) ∧
    ((∀ f ∈ (audit file_path content env).failure_modes,
        startsWithWarn f = true) →
      (audit file_path content env).verdict ≠ "FAIL") := by
  constructor
  · rw [hp]; rfl
  · intro hall
    have hnil : (audit_findings file_path content env).filter
        (fun f => !(startsWithWarn f)) = [] := by
      rw [List.filter_eq_nil_iff]
      intro a ha
      have hmem : a ∈ (audit file_path content env).failure_modes := by
        unfold audit
        rw [resolve_verdict_failure_modes]
        exact ha
      simp [hall a hmem]
    by_cases hg : classify_risk_grade file_path content = RiskGrade.L3
    · unfold audit
      rw [hg, resolve_verdict_l3 _ _ hnil]
      decide
    · unfold audit
      rw [resolve_verdict_pass _ _ _ hnil hg]
      decide

/-- Witness for the C9 theorem: an unparseable one-character content at a
    neutral path audits to PASS, not FAIL. -/
theorem parse_failure_skips_complexity_witness :
    check_cyclomatic_complexity emptyAuditEnv.parse = (0, []) ∧
    ((∀ f ∈ (audit "notes.txt" "(" emptyAuditEnv).failure_modes,
        startsWithWarn f = true) →
      (audit "notes.txt" "(" emptyAuditEnv).verdict ≠ "FAIL") :=
  parse_failure_skips_complexity "notes.txt" "(" emptyAuditEnv rfl

/-! ## SHA-256 (FIPS 180-4) over byte lists

Embeds hashlib.sha256(...).hexdigest() as used by the ledger.  Words are
Nat values kept below 2^32 by explicit reduction. -/

def add32 (a b : Nat) : Nat := (a + b) % 4294967296

def rotr32 (n x : Nat) : Nat :=
  ((x >>> n) ||| (x <<< (32 - n))) % 4294967296

def shaCh (x y z : Nat) : Nat := (x &&& y) ^^^ ((x ^^^ 4294967295) &&& z)

def shaMaj (x y z : Nat) : Nat := (x &&& y) ^^^ (x &&& z) ^^^ (y &&& z)

def bsig0 (x : Nat) : Nat := rotr32 2 x ^^^ rotr32 13 x ^^^ rotr32 22 x

def bsig1 (x : Nat) : Nat := rotr32 6 x ^^^ rotr32 11 x ^^^ rotr32 25 x

def ssig0 (x : Nat) : Nat := rotr32 7 x ^^^ rotr32 18 x ^^^ (x >>> 3)

def ssig1 (x : Nat) : Nat := rotr32 17 x ^^^ rotr32 19 x ^^^ (x >>> 10)

/-- The 64 SHA-256 round constants (FIPS 180-4, in decimal). -/
def shaK : List Nat :=
  [1116352408, 1899447441, 3049323471, 3921009573,
   961987163, 1508970993, 2453635748, 2870763221,
   3624381080, 310598401, 607225278, 1426881987,
   1925078388, 2162078206, 2614888103, 3248222580,
   3835390401, 4022224774, 264347078, 604807628,
   770255983, 1249150122, 1555081692, 1996064986,
   2554220882, 2821834349, 2952996808, 3210313671,
   3336571891, 3584528711, 113926993, 338241895,
   666307205, 773529912, 1294757372, 1396182291,
   1695183700, 1986661051, 2177026350, 2456956037,
   2730485921, 2820302411, 3259730800, 3345764771,
   3516065817, 3600352804, 4094571909, 275423344,
   430227734, 506948616, 659060556, 883997877,
   958139571, 1322822218, 1537002063, 1747873779,
   1955562222, 2024104815, 2227730452, 2361852424,
   2428436474, 2756734187, 3204031479, 3329325298]

/-- The eight SHA-256 initial hash values (in decimal). -/
def shaH0 : List Nat :=
  [1779033703, 3144134277, 1013904242, 2773480762,
   1359893119, 2600822924, 528734635, 1541459225]

/-- Big-endian 8-byte encoding of a 64-bit length. -/
def be64 (n : Nat) : List Nat :=
  [(n >>> 56) % 256, (n >>> 48) % 256, (n >>> 40) % 256, (n >>> 32) % 256,
   (n >>> 24) % 256, (n >>> 16) % 256, (n >>> 8) % 256, n % 256]

/-- SHA-256 padding: 0x80, zeros to 56 mod 64, then the bit length. -/
def padMessage (msg : List Nat) : List Nat :=
  let len := msg.length
  let zeros := (119 - (len % 64)) % 64
  msg ++ [128] ++ List.replicate zeros 0 ++ be64 (len * 8)

/-- Big-endian packing of bytes into 32-bit words. -/
def bytesToWords : List Nat → List Nat
  | b0 :: b1 :: b2 :: b3 :: rest =>
    (b0 * 16777216 + b1 * 65536 + b2 * 256 + b3) :: bytesToWords rest
  | _ => []

/-- Accumulating splitter: collects 64-byte blocks from the byte
    stream.  Structural recursion on the stream keeps the definition
    kernel-reducible. -/
def chunksGo : List Nat → List Nat → Nat → List (List Nat)
  | [], cur, _ => if cur = [] then [] else [cur.reverse]
  | b :: rest, cur, curLen =>
    if curLen = 63 then (b :: cur).reverse :: chunksGo rest [] 0
    else chunksGo rest (b :: cur) (curLen + 1)

/-- Splits the padded message into 64-byte blocks. -/
def chunks64 (l : List Nat) : List (List Nat) :=
  chunksGo l [] 0

/-- One message-schedule extension step appending word W[t] for
    t = w.length. -/
def scheduleStep (w : List Nat) : List Nat :=
  let i := w.length
  w ++ [add32 (add32 (ssig1 (w.getD (i - 2) 0)) (w.getD (i - 7) 0))
          (add32 (ssig0 (w.getD (i - 15) 0)) (w.getD (i - 16) 0))]

/-- Extends the schedule by the given number of words. -/
def buildSchedule (w : List Nat) : Nat → List Nat
  | 0 => w
  | n + 1 => buildSchedule (scheduleStep w) n

/-- One compression round over the working state [a,b,c,d,e,f,g,h]. -/
def compressStep (state : List Nat) (kw : Nat × Nat) : List Nat :=
  match state with
  | [a, b, c, d, e, f, g, h] =>
    let t1 := add32 h (add32 (bsig1 e)
      (add32 (shaCh e f g) (add32 kw.1 kw.2)))
    let t2 := add32 (bsig0 a) (shaMaj a b c)
    [add32 t1 t2, a, b, c, add32 d t1, e, f, g]
  | s => s

/-- Compresses one 64-byte block into the running hash state. -/
def compressBlock (h : List Nat) (block : List Nat) : List Nat :=
  let w := buildSchedule (bytesToWords block) 48
  let final := (shaK.zip w).foldl compressStep h
  List.zipWith add32 h final

/-- SHA-256 digest (32 bytes) of a byte list. -/
def sha256bytes (msg : List Nat) : List Nat :=
  let h := (chunks64 (padMessage msg)).foldl compressBlock shaH0
  h.foldr (fun w acc =>
    (w >>> 24) % 256 :: (w >>> 16) % 256 :: (w >>> 8) % 256 :: w % 256 :: acc) []

/-- Lowercase hex digit. -/
def hexDigit (n : Nat) : Char := "0123456789abcdef".data.getD n '0'

/-- Lowercase hex encoding of a byte list (hexdigest). -/
def bytesToHex (bs : List Nat) : String :=
  String.mk (bs.foldr
    (fun b acc => hexDigit (b / 16) :: hexDigit (b % 16) :: acc) [])

/-- UTF-8 bytes of a string; the ledger fields hashed here are ASCII, on
    which UTF-8 encoding is the identity on code points. -/
def strBytes (s : String) : List Nat := s.data.map Char.toNat

/-- hashlib.sha256(s.encode()).hexdigest(). -/
def sha256hex (s : String) : String := bytesToHex (sha256bytes (strBytes s))

/-- FIPS 180-4 test vector anchoring the SHA-256 embedding. -/
theorem sha256hex_abc :
    sha256hex "abc" =
      "ba7816bf8f01cfea414140de5dae2223b00361a396177a9cb410ff61f20015ad" := by
  rfl

/-! ## Sovereign Ledger (server.py) -/

/-- A stored soa_ledger row: the columns written by the INSERT in
    log_event. -/
structure LedgerRow where
  timestamp : String
  agent_did : String
  event_type : String
  risk_grade : String
  payload : String
  entry_hash : String
  prev_hash : String
  signature : String
deriving DecidableEq, Repr

/-- The genesis previous-hash constant: 64 zero characters. -/
def GENESIS_HASH : String := String.mk (List.replicate 64 '0')

/-- Embeds get_previous_hash: the entry_hash of the newest row, or the
    genesis constant on an empty ledger. -/
def get_previous_hash (ledger : List LedgerRow) : String :=
  match ledger.getLast? with
  | some row => row.entry_hash
  | none => GENESIS_HASH

/-- Embeds compute_entry_hash: SHA-256 over the concatenation of
    timestamp, DID, payload and previous hash. -/
def compute_entry_hash (timestamp did payload prev_hash : String) : String :=
  sha256hex (timestamp ++ did ++ payload ++ prev_hash)

/-- Embeds log_event.  time_now is str(time.time()) at the call and
    datetime_now is the datetime(now) value the INSERT stores in the
    timestamp column: the source hashes time_now but stores datetime_now.
    Returns the extended ledger and the entry hash. -/
def log_event (ledger : List LedgerRow) (time_now datetime_now : String)
    (agent_role event_type risk_grade payload : String) :
    List LedgerRow × String :=
  let prev_hash := get_previous_hash ledger
  let timestamp := time_now
  let did := "did:myth:" ++ String.mk (toLowerList agent_role.data) ++ ":active"
  let entry_hash := compute_entry_hash timestamp did payload prev_hash
  let signature := "sig_" ++ String.mk ((sha256hex entry_hash).data.take 16)
  (ledger ++ [{ timestamp := datetime_now
                agent_did := did
                event_type := event_type
                risk_grade := risk_grade
                payload := payload
                entry_hash := entry_hash
                prev_hash := prev_hash
                signature := signature }], entry_hash)

/-- Modelled from the spec: the repository ships no replay verifier, so
    this renders the verification sentence of spec section 4.4 — replay
    the chain from genesis, recompute each hash from the stored fields
    (timestamp, signer identity, payload, previous-entry hash) and
    require it to reproduce the stored entry_hash, with each prev_hash
    equal to the previous entry hash. -/
def replay_from (prev : String) : List LedgerRow → Bool
  | [] => true
  | row :: rest =>
    (row.prev_hash == prev) &&
    (compute_entry_hash row.timestamp row.agent_did row.payload
      row.prev_hash == row.entry_hash) &&
    replay_from row.entry_hash rest

/-- Modelled from the spec: full-chain replay verification from the
    genesis constant. -/
def replay_verify (ledger : List LedgerRow) : Bool :=
  replay_from GENESIS_HASH ledger

/-- The one-entry ledger produced by a single log_event append, at the
    concrete wall-clock readouts of the call: the hash commits to
    str(time.time()) while the stored timestamp column receives the
    datetime(now) string. -/
def exampleLedger : List LedgerRow :=
  (log_event [] "1760241120.5" "2025-12-01 10:00:00"
    "Scrivener" "PROPOSAL" "L1" "x").1

set_option maxRecDepth 100000

/-- C1 at the failing input: a ledger produced only by append does not
    replay — recomputing the hash from the stored row fields cannot
    reproduce the stored entry_hash, because log_event hashes the
    str(time.time()) timestamp but stores datetime(now) in the timestamp
    column.  Storing the hashed timestamp instead makes the same chain
    replay, confirming the mismatch is exactly the timestamp slip. -/
theorem ledger_replay_fails_on_stored_timestamp :
    replay_verify exampleLedger = false ∧
    (exampleLedger.map (fun row => row.timestamp)) =
      ["2025-12-01 10:00:00"] ∧
    replay_verify (exampleLedger.map
      (fun row => { row with timestamp := "1760241120.5" })) = true := by
  refine ⟨?_, rfl, ?_⟩ <;> rfl

end QoreLogic
